import Mathlib

/-!
Verification of the xVPN2 backend session / liveness / retention core
(`src/backend/main.py`, `src/backend/no_logs.py`) against its
natural-language specification.

Modelling conventions:
* Time is modelled in whole seconds as `Nat` (the source uses `time.time()`
  floats and `datetime` values; every claim under scrutiny only compares
  times, subtracts them, or floor-divides them, so whole seconds suffice).
  Each operation takes the current time `now` as an explicit parameter,
  standing for the `time.time()` / `datetime.now()` calls in its body;
  the few bodies that read the clock more than once within a handful of
  microseconds are modelled as reading it once.
* The Python dictionaries `active_sessions` and `kill_switch_registry`
  are modelled as insertion-ordered association lists with the usual
  Python-dict semantics: lookup finds the unique binding, insertion
  replaces in place or appends, `pop` removes the binding.
* The SQLAlchemy `server_logs` table is modelled as a list of `ServerLog`
  records; `db.add`/`db.commit` is list append, `db.delete` is removal.
* Randomised cosmetic payload (latency figures, byte counters drawn from
  `random`) is passed in as a parameter or omitted when no claim reads it.
* Python string values that are only compared are `String`; the one string
  that gets sliced (`region[:2].upper()`) is modelled as `List Char`.
-/

namespace XVPN

/-- Python-dict lookup on an insertion-ordered association list. -/
def dlookup {β : Type} : List (String × β) → String → Option β
  | [], _ => none
  | e :: rest, k => if e.1 = k then some e.2 else dlookup rest k

/-- Python `dict.pop(k, None)`: remove the binding for `k` (no-op when absent). -/
def dpop {β : Type} (k : String) : List (String × β) → List (String × β)
  | [] => []
  | e :: rest => if e.1 = k then dpop k rest else e :: dpop k rest

/-- Python `d[k] = v`: replace the binding in place, or append a new one. -/
def dinsert {β : Type} (k : String) (v : β) : List (String × β) → List (String × β)
  | [] => [(k, v)]
  | e :: rest => if e.1 = k then (k, v) :: rest else e :: dinsert k v rest

/-- The key set of an association list, in insertion order. -/
def dkeys {β : Type} (l : List (String × β)) : List String := l.map (·.1)

/-! ### Retention store (`src/backend/no_logs.py`, `src/backend/models.py`) -/

/-- `NO_LOGS_RETENTION_MINUTES = 5` (`no_logs.py`). -/
def NO_LOGS_RETENTION_MINUTES : Nat := 5

/-- A row of the `server_logs` table (`models.py`, class `ServerLog`).
`timestamp` and `purge_after` are seconds; `anonymized_region` is the
sliced string as a character list.  The table has no column for a session
identifier or a caller identity.  The SQLAlchemy primary-key `id` column
(a fresh UUID) is not modelled: no claim reads it. -/
structure ServerLog where
  event_type : String
  server_id : Option String
  timestamp : Nat
  duration_seconds : Option Nat
  bytes_transferred : Option Nat
  protocol : Option String
  anonymized_region : Option (List Char)
  purge_after : Nat
  is_purged : Bool
  no_logs_compliant : Bool
deriving DecidableEq, Repr

/-- `create_minimal_log` (`no_logs.py` lines 12–45): builds the row that the
function `db.add`s.  `region[:2].upper()` becomes `take 2` then
`Char.toUpper`; Python's truthiness test `if region` is the `some`/empty
check.  The two `datetime.now()` calls in the body are modelled as the
single instant `now`. -/
def create_minimal_log (now : Nat) (event_type : String)
    (_server_id : Option String := none)
    (duration_seconds : Option Nat := none)
    (bytes_transferred : Option Nat := none)
    (protocol : Option String := none)
    (region : Option (List Char) := none) : ServerLog :=
  let anonymized_region :=
    match region with
    | some r => if 2 ≤ r.length then some ((r.take 2).map Char.toUpper) else none
    | none => none
  let purge_at := now + NO_LOGS_RETENTION_MINUTES * 60
  let rounded_timestamp := now / 3600 * 3600
  { event_type := event_type
    server_id := none
    timestamp := rounded_timestamp
    duration_seconds := duration_seconds
    bytes_transferred := bytes_transferred
    protocol := protocol
    anonymized_region := anonymized_region
    purge_after := purge_at
    is_purged := false
    no_logs_compliant := true }

/-- The selection predicate of `purge_expired_logs` (`no_logs.py` lines 50–53):
`purge_after <= now` and `is_purged == False`. -/
def purgeEligible (now : Nat) (l : ServerLog) : Bool :=
  decide (l.purge_after ≤ now) && !l.is_purged

/-- `purge_expired_logs` (`no_logs.py` lines 48–63): deletes every selected
row and returns the count deleted, together with the surviving table. -/
def purge_expired_logs (now : Nat) (logs : List ServerLog) : Nat × List ServerLog :=
  ((logs.filter (purgeEligible now)).length, logs.filter (fun l => !purgeEligible now l))

/-! ### Session registry and kill-switch registry (`src/backend/main.py`) -/

/-- `KILL_SWITCH_HEARTBEAT_INTERVAL = 10` (`main.py` line 512). -/
def KILL_SWITCH_HEARTBEAT_INTERVAL : Nat := 10

/-- `KILL_SWITCH_TIMEOUT = 30` (`main.py` line 513). -/
def KILL_SWITCH_TIMEOUT : Nat := 30

/-- The `status` string of a kill-switch registry entry:
`"active" | "warning" | "triggered"`. -/
inductive KSStatus where
  | active
  | warning
  | triggered
deriving DecidableEq, Repr

/-- A value of `kill_switch_registry` (`main.py` lines 645–665).  The
constant fields (`heartbeat_interval_sec`, `timeout_sec`,
`max_missed_heartbeats`, `network_lock`, the firewall-rule list, the
`created_at` display string) are module-level constants in the source and
are not modelled; no claim reads them. -/
structure KSRecord where
  enabled : Bool
  last_heartbeat : Nat
  missed_heartbeats : Nat
  status : KSStatus
deriving DecidableEq, Repr

/-- A value of `active_sessions` (`main.py` lines 1026–1039).  Only the
fields the core lifecycle operations read are modelled: `server_id` and
`server["flag"]` (flows into termination info and retention records),
`connected_at`, `protocol`, `kill_switch`, and `user_id` (set at connect,
line 1119).  The cosmetic payload (virtual IP, stealth configuration,
and so on) is opaque to the core. -/
structure Sess where
  server_id : String
  server_flag : Option (List Char)
  connected_at : Nat
  protocol : Option String
  kill_switch : Bool
  user_id : String
deriving DecidableEq, Repr

/-- The shared mutable state: the two module-level registries of `main.py`
(lines 510, 515) plus the `server_logs` table written via
`create_minimal_log`. -/
structure St where
  active_sessions : List (String × Sess)
  kill_switch_registry : List (String × KSRecord)
  server_logs : List ServerLog
deriving DecidableEq, Repr

/-- `kill_switch_register` (`main.py` lines 641–666): with `enabled=False`
the registry is untouched; otherwise a fresh record with
`last_heartbeat = now`, `missed_heartbeats = 0`, `status = "active"` is
stored under the session id. -/
def kill_switch_register (now : Nat) (session_id : String) (enabled : Bool)
    (reg : List (String × KSRecord)) : List (String × KSRecord) :=
  if !enabled then reg
  else dinsert session_id
    { enabled := true, last_heartbeat := now, missed_heartbeats := 0, status := .active } reg

/-- Successful response of `kill_switch_heartbeat`: the refreshed status and
`time_since_last_heartbeat_sec`. -/
structure HBResp where
  status : KSStatus
  time_since_last_heartbeat : Nat
deriving DecidableEq, Repr

/-- `kill_switch_heartbeat` (`main.py` lines 669–688): an unregistered id
yields the `{"error": ...}` dictionary; otherwise `last_heartbeat := now`,
`missed_heartbeats := 0`, `status := "active"`, and the refreshed state is
returned. -/
def kill_switch_heartbeat (now : Nat) (session_id : String)
    (reg : List (String × KSRecord)) :
    Except String HBResp × List (String × KSRecord) :=
  match dlookup reg session_id with
  | none => (.error "Kill switch not registered for this session", reg)
  | some ks =>
      (.ok { status := .active, time_since_last_heartbeat := now - ks.last_heartbeat },
       dinsert session_id
         { ks with last_heartbeat := now, missed_heartbeats := 0, status := .active } reg)

/-- The per-record evaluation performed by `kill_switch_check_all` on every
enabled registry entry (`main.py` lines 699–704 and 716–717):
`missed_heartbeats := int(elapsed / interval)` unconditionally, then
`status := "triggered"` when `elapsed >= timeout`, else `status :=
"warning"` when at least one heartbeat was missed, else the status field is
left as it was. -/
def checkRecord (now : Nat) (ks : KSRecord) : KSRecord :=
  let elapsed := now - ks.last_heartbeat
  let missed := elapsed / KILL_SWITCH_HEARTBEAT_INTERVAL
  let ks' := { ks with missed_heartbeats := missed }
  if KILL_SWITCH_TIMEOUT ≤ elapsed then { ks' with status := .triggered }
  else if 1 ≤ missed then { ks' with status := .warning }
  else ks'

/-- One entry of the `terminated` list built by `kill_switch_check_all`
(`main.py` lines 707–714).  `reason` is the constant `"heartbeat_timeout"`;
the display timestamp is not modelled. -/
structure TermInfo where
  session_id : String
  reason : String
  missed_heartbeats : Nat
  elapsed : Nat
  server_id : String
deriving DecidableEq, Repr

/-- The Boolean filter used to count terminations for one session id. -/
def termFor (sid : String) (tm : TermInfo) : Bool := tm.session_id == sid

/-- The scan loop of `kill_switch_check_all` (`main.py` lines 696–717),
processing registry entries in iteration order.  Returns the registry with
each record updated in place, the `terminated` list, the `expired_sessions`
list, and the session registry after the `active_sessions.pop(sid)` calls
made inside the loop. -/
def checkAllGo (now : Nat) :
    List (String × KSRecord) → List (String × Sess) →
    List (String × KSRecord) × List TermInfo × List String × List (String × Sess)
  | [], act => ([], [], [], act)
  | (sid, ks) :: rest, act =>
    if !ks.enabled then
      let (r, t, e, a) := checkAllGo now rest act
      ((sid, ks) :: r, t, e, a)
    else
      let elapsed := now - ks.last_heartbeat
      let missed := elapsed / KILL_SWITCH_HEARTBEAT_INTERVAL
      if KILL_SWITCH_TIMEOUT ≤ elapsed then
        match dlookup act sid with
        | some session =>
          let (r, t, e, a) := checkAllGo now rest (dpop sid act)
          ((sid, checkRecord now ks) :: r,
           { session_id := sid, reason := "heartbeat_timeout",
             missed_heartbeats := missed, elapsed := elapsed,
             server_id := session.server_id } :: t,
           sid :: e, a)
        | none =>
          let (r, t, e, a) := checkAllGo now rest act
          ((sid, checkRecord now ks) :: r, t, sid :: e, a)
      else
        let (r, t, e, a) := checkAllGo now rest act
        ((sid, checkRecord now ks) :: r, t, e, a)

/-- The deferred removals of `kill_switch_check_all` (`main.py` lines
719–720): `for sid in expired_sessions: kill_switch_registry.pop(sid, None)`. -/
def dpopAll {β : Type} (ids : List String) (l : List (String × β)) : List (String × β) :=
  ids.foldl (fun acc sid => dpop sid acc) l

/-- `kill_switch_check_all` (`main.py` lines 691–722), one Monitor tick at
time `now`: scan every registry record, update it in place, terminate the
sessions of timed-out records, then pop all expired records from the
kill-switch registry; returns the `terminated` list. -/
def kill_switch_check_all (now : Nat) (st : St) : List TermInfo × St :=
  let (reg, t, e, act) := checkAllGo now st.kill_switch_registry st.active_sessions
  (t, { st with kill_switch_registry := dpopAll e reg, active_sessions := act })

/-! ### Façade endpoints (`src/backend/main.py`) -/

/-- The HTTP error kinds the modelled endpoints raise: `HTTPException`
with status 404 (`notFound`) or 400 (`badRequest`). -/
inductive Err where
  | notFound
  | badRequest
deriving DecidableEq, Repr

/-- `POST /api/connect` (`main.py` lines 1002–1128), restricted to its
effect on the shared state: insert the session, register the kill switch
when requested, append the `"session_start"` retention record built from
the server's protocol and flag.  Catalog validation, the response payload,
and the per-user counters live outside the modelled state.  `session_id`
stands for the freshly minted UUID. -/
def connect (now : Nat) (session_id : String) (user_id : String) (sess : Sess)
    (protocol : Option String) (region : Option (List Char)) (st : St) : St :=
  let sess := { sess with connected_at := now, user_id := user_id }
  let act := dinsert session_id sess st.active_sessions
  let reg :=
    if sess.kill_switch then kill_switch_register now session_id true st.kill_switch_registry
    else st.kill_switch_registry
  let log := create_minimal_log now "session_start" none none none protocol region
  { active_sessions := act, kill_switch_registry := reg,
    server_logs := st.server_logs ++ [log] }

/-- `DELETE /api/disconnect` (`main.py` lines 1260–1289): 404 when the id is
absent from `active_sessions`; otherwise pop the session, compute
`uptime = now - connected_at`, pop any kill-switch record, append the
`"session_end"` retention record carrying the duration, and return the
uptime.  `user_id` is the authenticated caller (`current_user`);
`bytes_transferred` stands for the randomly drawn byte counter (line 1270).
The per-user byte accounting (lines 1271–1272) lives outside the modelled
state. -/
def disconnect (now : Nat) (session_id : String) (user_id : String)
    (bytes_transferred : Nat) (st : St) : Except Err Nat × St :=
  match dlookup st.active_sessions session_id with
  | none => (.error .notFound, st)
  | some session =>
      let uptime := now - session.connected_at
      let log := create_minimal_log now "session_end" none (some uptime)
        (some bytes_transferred) session.protocol session.server_flag
      (.ok uptime,
       { active_sessions := dpop session_id st.active_sessions,
         kill_switch_registry := dpop session_id st.kill_switch_registry,
         server_logs := st.server_logs ++ [log] })

/-- `POST /api/kill-switch/heartbeat` (`main.py` lines 1378–1389): when the
session is absent, pop any lingering kill-switch record and raise 404;
otherwise delegate to `kill_switch_heartbeat`, turning its error dictionary
into a 400. -/
def heartbeat (now : Nat) (session_id : String) (st : St) : Except Err HBResp × St :=
  match dlookup st.active_sessions session_id with
  | none =>
      (.error .notFound, { st with kill_switch_registry := dpop session_id st.kill_switch_registry })
  | some _ =>
      match kill_switch_heartbeat now session_id st.kill_switch_registry with
      | (.error _, reg) => (.error .badRequest, { st with kill_switch_registry := reg })
      | (.ok r, reg) => (.ok r, { st with kill_switch_registry := reg })

/-- Response of `GET /api/status`, restricted to the fields that are a
function of the modelled state: the "No active VPN session" dictionary
(carrying `len(active_sessions)`) or the connected dictionary (carrying the
session id and `uptime_seconds`).  Randomised cosmetic fields are omitted. -/
inductive StatusResp where
  | disconnected (active_sessions : Nat)
  | connected (session_id : String) (uptime_seconds : Nat)
deriving DecidableEq, Repr

/-- Python truthiness of an `Optional[str]` query parameter: both `None`
and the empty string `""` are falsy (`not session_id` is `True` for both). -/
def strFalsy : Option String → Bool
  | none => true
  | some s => s.isEmpty

/-- `GET /api/status` (`main.py` lines 1131–1194).  The guards are Python
truthiness tests: `if not session_id and active_sessions:` (line 1133)
falls back to the most recently inserted session when the id is omitted
*or empty* and a session exists; `if not session_id or session_id not in
active_sessions:` (line 1136) yields the "disconnected" result value
(never an exception); otherwise the connected view.  The registries and
the log table are only read, never written, so the state is returned
unchanged. -/
def status (now : Nat) (session_id : Option String) (st : St) : StatusResp × St :=
  let session_id :=
    if strFalsy session_id && !st.active_sessions.isEmpty then
      (dkeys st.active_sessions).getLast?
    else session_id
  match session_id with
  | none => (.disconnected st.active_sessions.length, st)
  | some sid =>
      if sid.isEmpty then (.disconnected st.active_sessions.length, st)
      else
        match dlookup st.active_sessions sid with
        | none => (.disconnected st.active_sessions.length, st)
        | some session => (.connected sid (now - session.connected_at), st)

/-- Response of `GET /api/kill-switch/status`: the "not registered" result
value, the per-session view (`status`, `missed_heartbeats`,
`last_heartbeat_sec_ago`), or the all-sessions summary. -/
inductive KSStatusResp where
  | notRegistered (session_id : String)
  | info (session_id : String) (enabled : Bool) (status : KSStatus)
      (missed_heartbeats : Nat) (last_heartbeat_sec_ago : Nat)
  | summary (total : Nat) (sessions : List (String × KSStatus × Nat × Nat))
deriving DecidableEq, Repr

/-- `GET /api/kill-switch/status` (`main.py` lines 1392–1425).  The guard
`if session_id:` (line 1394) is a Python truthiness test: a *truthy*
(non-empty) id yields its record's view, or the "not registered" result
value (never an exception) when unregistered; an omitted *or empty* id
yields the summary over the whole registry.  Pure read: the state is
returned unchanged. -/
def kill_switch_status (now : Nat) (session_id : Option String) (st : St) :
    KSStatusResp × St :=
  match session_id with
  | some sid =>
      if sid.isEmpty then
        (.summary st.kill_switch_registry.length
          (st.kill_switch_registry.map
            (fun e => (e.1, e.2.status, e.2.missed_heartbeats, now - e.2.last_heartbeat))), st)
      else
        match dlookup st.kill_switch_registry sid with
        | none => (.notRegistered sid, st)
        | some ks =>
            (.info sid ks.enabled ks.status ks.missed_heartbeats (now - ks.last_heartbeat), st)
  | none =>
      (.summary st.kill_switch_registry.length
        (st.kill_switch_registry.map
          (fun e => (e.1, e.2.status, e.2.missed_heartbeats, now - e.2.last_heartbeat))), st)

/-! ### Sample fixtures used by closed instances -/

/-- A sample session owned by `"alice"`, connected at 0 s with the kill
switch enabled. -/
def sampleSess : Sess :=
  { server_id := "srv-1", server_flag := none, connected_at := 0,
    protocol := none, kill_switch := true, user_id := "alice" }

/-- A sample shared state holding one session `"s"` (see `sampleSess`) with
its kill-switch record, last heartbeat at 0 s, and an empty retention
store. -/
def sampleSt : St :=
  { active_sessions := [("s", sampleSess)],
    kill_switch_registry :=
      [("s", { enabled := true, last_heartbeat := 0, missed_heartbeats := 0,
               status := .active })],
    server_logs := [] }

/-! ### Dictionary lemmas -/

theorem dlookup_eq_none_iff {β : Type} (l : List (String × β)) (k : String) :
    dlookup l k = none ↔ k ∉ dkeys l := by
  induction l with
  | nil => simp [dlookup, dkeys]
  | cons e rest ih =>
      simp only [dlookup, dkeys, List.map_cons, List.mem_cons]
      by_cases h : e.1 = k
      · constructor
        · intro hn; rw [if_pos h] at hn; cases hn
        · intro hn; exact absurd (Or.inl h.symm) hn
      · rw [if_neg h, ih]
        have hke : ¬ k = e.1 := fun hk => h hk.symm
        constructor
        · rintro hn (hc | hc)
          · exact hke hc
          · exact hn hc
        · exact fun hn hc => hn (Or.inr hc)

theorem dlookup_isSome_iff {β : Type} (l : List (String × β)) (k : String) :
    (dlookup l k).isSome ↔ k ∈ dkeys l := by
  constructor
  · intro hs
    by_contra hm
    rw [(dlookup_eq_none_iff l k).2 hm] at hs
    cases hs
  · intro hm
    rw [← Option.ne_none_iff_isSome]
    intro hn
    exact (dlookup_eq_none_iff l k).1 hn hm

theorem not_mem_dkeys_dpop {β : Type} (k : String) (l : List (String × β)) :
    k ∉ dkeys (dpop k l) := by
  induction l with
  | nil => simp [dpop, dkeys]
  | cons e rest ih =>
      by_cases h : e.1 = k
      · simpa [dpop, h] using ih
      · simp only [dpop, h, if_false, dkeys, List.map_cons, List.mem_cons]
        rintro (rfl | hk)
        · exact h rfl
        · exact ih hk

theorem dlookup_dpop_ne {β : Type} (k a : String) (l : List (String × β)) (h : a ≠ k) :
    dlookup (dpop k l) a = dlookup l a := by
  induction l with
  | nil => rfl
  | cons e rest ih =>
      by_cases he : e.1 = k
      · have hea : ¬ e.1 = a := by rw [he]; exact fun hk => h hk.symm
        rw [dpop, if_pos he, ih, dlookup, if_neg hea]
      · rw [dpop, if_neg he, dlookup, dlookup]
        by_cases hea : e.1 = a
        · rw [if_pos hea, if_pos hea]
        · rw [if_neg hea, if_neg hea, ih]

theorem mem_dkeys_dpop {β : Type} (k a : String) (l : List (String × β)) :
    a ∈ dkeys (dpop k l) ↔ a ∈ dkeys l ∧ a ≠ k := by
  constructor
  · intro h
    have hak : a ≠ k := fun he => not_mem_dkeys_dpop k l (he ▸ h)
    refine ⟨?_, hak⟩
    have hs := (dlookup_isSome_iff (dpop k l) a).2 h
    rw [dlookup_dpop_ne k a l hak] at hs
    exact (dlookup_isSome_iff l a).1 hs
  · rintro ⟨hm, hak⟩
    have hs := (dlookup_isSome_iff l a).2 hm
    rw [← dlookup_dpop_ne k a l hak] at hs
    exact (dlookup_isSome_iff (dpop k l) a).1 hs

theorem dkeys_dpop_subset {β : Type} (k : String) (l : List (String × β)) :
    dkeys (dpop k l) ⊆ dkeys l := by
  intro a h
  exact ((mem_dkeys_dpop k a l).1 h).1

theorem dlookup_dinsert_self {β : Type} (k : String) (v : β) (l : List (String × β)) :
    dlookup (dinsert k v l) k = some v := by
  induction l with
  | nil => simp [dinsert, dlookup]
  | cons e rest ih =>
      by_cases h : e.1 = k
      · simp [dinsert, h, dlookup]
      · simp [dinsert, h, dlookup, ih]

theorem dlookup_dinsert_ne {β : Type} (k a : String) (v : β) (l : List (String × β))
    (h : a ≠ k) : dlookup (dinsert k v l) a = dlookup l a := by
  have hka : ¬ k = a := fun hk => h hk.symm
  induction l with
  | nil => simp [dinsert, dlookup, hka]
  | cons e rest ih =>
      by_cases he : e.1 = k
      · have hea : ¬ e.1 = a := by rw [he]; exact hka
        rw [dinsert, if_pos he, dlookup, dlookup, if_neg hka, if_neg hea]
      · rw [dinsert, if_neg he, dlookup, dlookup]
        by_cases hea : e.1 = a
        · rw [if_pos hea, if_pos hea]
        · rw [if_neg hea, if_neg hea, ih]

/-! ### Scan-loop lemmas for `kill_switch_check_all` -/

/-- One-step equation: a disabled record is carried over unchanged
(`continue`). -/
theorem checkAllGo_cons_disabled (now : Nat) (sid0 : String) (ks : KSRecord)
    (rest : List (String × KSRecord)) (act : List (String × Sess))
    (hen : ks.enabled = false) :
    checkAllGo now ((sid0, ks) :: rest) act =
      ((sid0, ks) :: (checkAllGo now rest act).1,
       (checkAllGo now rest act).2.1,
       (checkAllGo now rest act).2.2.1,
       (checkAllGo now rest act).2.2.2) := by
  simp [checkAllGo, hen]

/-- One-step equation: a record below the timeout is updated in place and
produces no termination. -/
theorem checkAllGo_cons_live (now : Nat) (sid0 : String) (ks : KSRecord)
    (rest : List (String × KSRecord)) (act : List (String × Sess))
    (hen : ks.enabled = true) (ht : ¬ KILL_SWITCH_TIMEOUT ≤ now - ks.last_heartbeat) :
    checkAllGo now ((sid0, ks) :: rest) act =
      ((sid0, checkRecord now ks) :: (checkAllGo now rest act).1,
       (checkAllGo now rest act).2.1,
       (checkAllGo now rest act).2.2.1,
       (checkAllGo now rest act).2.2.2) := by
  simp [checkAllGo, hen, ht]

/-- One-step equation: a timed-out record whose session is still present
terminates the session (pop plus `terminated` entry) and is marked expired. -/
theorem checkAllGo_cons_trig_some (now : Nat) (sid0 : String) (ks : KSRecord)
    (rest : List (String × KSRecord)) (act : List (String × Sess)) (sess : Sess)
    (hen : ks.enabled = true) (ht : KILL_SWITCH_TIMEOUT ≤ now - ks.last_heartbeat)
    (hl : dlookup act sid0 = some sess) :
    checkAllGo now ((sid0, ks) :: rest) act =
      ((sid0, checkRecord now ks) :: (checkAllGo now rest (dpop sid0 act)).1,
       { session_id := sid0, reason := "heartbeat_timeout",
         missed_heartbeats := (now - ks.last_heartbeat) / KILL_SWITCH_HEARTBEAT_INTERVAL,
         elapsed := now - ks.last_heartbeat,
         server_id := sess.server_id } :: (checkAllGo now rest (dpop sid0 act)).2.1,
       sid0 :: (checkAllGo now rest (dpop sid0 act)).2.2.1,
       (checkAllGo now rest (dpop sid0 act)).2.2.2) := by
  simp [checkAllGo, hen, ht, hl]

/-- One-step equation: a timed-out record whose session is already gone is
dropped silently (marked expired, no termination, no session change). -/
theorem checkAllGo_cons_trig_none (now : Nat) (sid0 : String) (ks : KSRecord)
    (rest : List (String × KSRecord)) (act : List (String × Sess))
    (hen : ks.enabled = true) (ht : KILL_SWITCH_TIMEOUT ≤ now - ks.last_heartbeat)
    (hl : dlookup act sid0 = none) :
    checkAllGo now ((sid0, ks) :: rest) act =
      ((sid0, checkRecord now ks) :: (checkAllGo now rest act).1,
       (checkAllGo now rest act).2.1,
       sid0 :: (checkAllGo now rest act).2.2.1,
       (checkAllGo now rest act).2.2.2) := by
  simp [checkAllGo, hen, ht, hl]

/-- A session id absent from the kill-switch registry is untouched by the
scan loop: it does not appear in the updated registry, no termination is
emitted for it, and its session-registry binding is unchanged. -/
theorem checkAllGo_absent (now : Nat) (reg : List (String × KSRecord))
    (act : List (String × Sess)) (sid : String) (h : sid ∉ dkeys reg) :
    sid ∉ dkeys (checkAllGo now reg act).1 ∧
    (∀ tm ∈ (checkAllGo now reg act).2.1, tm.session_id ≠ sid) ∧
    dlookup (checkAllGo now reg act).2.2.2 sid = dlookup act sid := by
  induction reg generalizing act with
  | nil => simp [checkAllGo, dkeys]
  | cons hd rest ih =>
      obtain ⟨sid0, ks⟩ := hd
      have hne : sid0 ≠ sid := by
        intro hq; exact h (by simp [dkeys, hq])
      have hrest : sid ∉ dkeys rest := by
        intro hq
        exact h (by simp only [dkeys, List.map_cons, List.mem_cons]; exact Or.inr hq)
      have hkeys : ∀ (r : List (String × KSRecord)), sid ∉ dkeys r →
          sid ∉ dkeys ((sid0, checkRecord now ks) :: r) := by
        intro r hr
        simp only [dkeys, List.map_cons, List.mem_cons]
        rintro (rfl | hm)
        · exact hne rfl
        · exact hr hm
      cases hen : ks.enabled with
      | false =>
          obtain ⟨h1, h2, h3⟩ := ih act hrest
          rw [checkAllGo_cons_disabled now sid0 ks rest act hen]
          refine ⟨?_, h2, h3⟩
          simp only [dkeys, List.map_cons, List.mem_cons]
          rintro (rfl | hm)
          · exact hne rfl
          · exact h1 hm
      | true =>
          by_cases ht : KILL_SWITCH_TIMEOUT ≤ now - ks.last_heartbeat
          · cases hl : dlookup act sid0 with
            | some session =>
                obtain ⟨h1, h2, h3⟩ := ih (dpop sid0 act) hrest
                rw [checkAllGo_cons_trig_some now sid0 ks rest act session hen ht hl]
                refine ⟨hkeys _ h1, ?_, ?_⟩
                · intro tm hm
                  rcases List.mem_cons.1 hm with rfl | hm
                  · exact hne
                  · exact h2 tm hm
                · rw [h3, dlookup_dpop_ne sid0 sid act hne.symm]
            | none =>
                obtain ⟨h1, h2, h3⟩ := ih act hrest
                rw [checkAllGo_cons_trig_none now sid0 ks rest act hen ht hl]
                exact ⟨hkeys _ h1, h2, h3⟩
          · obtain ⟨h1, h2, h3⟩ := ih act hrest
            rw [checkAllGo_cons_live now sid0 ks rest act hen ht]
            exact ⟨hkeys _ h1, h2, h3⟩

/-- The scan loop only ever removes sessions: the surviving session
registry's keys are a subset of the input's. -/
theorem checkAllGo_act_subset (now : Nat) (reg : List (String × KSRecord))
    (act : List (String × Sess)) :
    dkeys (checkAllGo now reg act).2.2.2 ⊆ dkeys act := by
  induction reg generalizing act with
  | nil => intro a ha; simpa [checkAllGo] using ha
  | cons hd rest ih =>
      obtain ⟨sid0, ks⟩ := hd
      cases hen : ks.enabled with
      | false =>
          rw [checkAllGo_cons_disabled now sid0 ks rest act hen]
          exact ih act
      | true =>
          by_cases ht : KILL_SWITCH_TIMEOUT ≤ now - ks.last_heartbeat
          · cases hl : dlookup act sid0 with
            | some session =>
                rw [checkAllGo_cons_trig_some now sid0 ks rest act session hen ht hl]
                intro a ha
                exact dkeys_dpop_subset sid0 act (ih (dpop sid0 act) ha)
            | none =>
                rw [checkAllGo_cons_trig_none now sid0 ks rest act hen ht hl]
                exact ih act
          · rw [checkAllGo_cons_live now sid0 ks rest act hen ht]
            exact ih act

/-- Every session the scan loop reports as terminated has been popped from
the session registry and queued for removal from the kill-switch registry. -/
theorem checkAllGo_term_popped (now : Nat) (reg : List (String × KSRecord))
    (act : List (String × Sess)) :
    ∀ tm ∈ (checkAllGo now reg act).2.1,
      tm.session_id ∉ dkeys (checkAllGo now reg act).2.2.2 ∧
      tm.session_id ∈ (checkAllGo now reg act).2.2.1 := by
  induction reg generalizing act with
  | nil => simp [checkAllGo]
  | cons hd rest ih =>
      obtain ⟨sid0, ks⟩ := hd
      cases hen : ks.enabled with
      | false =>
          rw [checkAllGo_cons_disabled now sid0 ks rest act hen]
          exact ih act
      | true =>
          by_cases ht : KILL_SWITCH_TIMEOUT ≤ now - ks.last_heartbeat
          · cases hl : dlookup act sid0 with
            | some session =>
                rw [checkAllGo_cons_trig_some now sid0 ks rest act session hen ht hl]
                intro tm hm
                rcases List.mem_cons.1 hm with rfl | hm
                · refine ⟨?_, List.mem_cons_self _ _⟩
                  intro hmem
                  exact not_mem_dkeys_dpop sid0 act
                    (checkAllGo_act_subset now rest (dpop sid0 act) hmem)
                · obtain ⟨ha, he⟩ := ih (dpop sid0 act) tm hm
                  exact ⟨ha, List.mem_cons_of_mem _ he⟩
            | none =>
                rw [checkAllGo_cons_trig_none now sid0 ks rest act hen ht hl]
                intro tm hm
                obtain ⟨ha, he⟩ := ih act tm hm
                exact ⟨ha, List.mem_cons_of_mem _ he⟩
          · rw [checkAllGo_cons_live now sid0 ks rest act hen ht]
            exact ih act

/-- A timed-out record whose session is still present is terminated exactly
once by the scan loop: the `terminated` list contains precisely one entry
for its id — carrying the computed `missed_heartbeats`, the elapsed time,
and the session's `server_id` — the id is queued for registry removal, and
the session is gone from the surviving session registry. -/
theorem checkAllGo_stale (now : Nat) (reg : List (String × KSRecord))
    (act : List (String × Sess)) (sid : String) (ks : KSRecord) (sess : Sess)
    (hnd : (dkeys reg).Nodup)
    (hks : dlookup reg sid = some ks)
    (hen : ks.enabled = true)
    (ht : KILL_SWITCH_TIMEOUT ≤ now - ks.last_heartbeat)
    (hsess : dlookup act sid = some sess) :
    (checkAllGo now reg act).2.1.filter (termFor sid) =
      [{ session_id := sid, reason := "heartbeat_timeout",
         missed_heartbeats := (now - ks.last_heartbeat) / KILL_SWITCH_HEARTBEAT_INTERVAL,
         elapsed := now - ks.last_heartbeat, server_id := sess.server_id }] ∧
    sid ∈ (checkAllGo now reg act).2.2.1 ∧
    sid ∉ dkeys (checkAllGo now reg act).2.2.2 := by
  induction reg generalizing act with
  | nil => cases hks
  | cons hd rest ih =>
      obtain ⟨sid0, ks0⟩ := hd
      by_cases hsid : sid0 = sid
      · subst hsid
        have hks0 : ks0 = ks := by
          have : dlookup ((sid0, ks0) :: rest) sid0 = some ks0 := by
            simp [dlookup]
          rw [this] at hks; exact Option.some.inj hks
        subst hks0
        have hrest : sid0 ∉ dkeys rest := by
          have := hnd
          simp only [dkeys, List.map_cons, List.nodup_cons] at this
          exact this.1
        rw [checkAllGo_cons_trig_some now sid0 ks0 rest act sess hen ht hsess]
        obtain ⟨h1, h2, h3⟩ := checkAllGo_absent now rest (dpop sid0 act) sid0 hrest
        refine ⟨?_, List.mem_cons_self _ _, ?_⟩
        · rw [List.filter_cons_of_pos]
          · have hnil : (checkAllGo now rest (dpop sid0 act)).2.1.filter (termFor sid0) = [] := by
              rw [List.filter_eq_nil_iff]
              intro tm hm
              simpa [termFor] using h2 tm hm
            rw [hnil]
          · simp [termFor]
        · have h3' : sid0 ∉ dkeys (checkAllGo now rest (dpop sid0 act)).2.2.2 := by
            apply (dlookup_eq_none_iff _ _).1
            rw [h3]
            exact (dlookup_eq_none_iff (dpop sid0 act) sid0).2 (not_mem_dkeys_dpop sid0 act)
          exact h3'
      · have hks' : dlookup rest sid = some ks := by
          rw [dlookup, if_neg hsid] at hks; exact hks
        have hnd' : (dkeys rest).Nodup := by
          simp only [dkeys, List.map_cons, List.nodup_cons] at hnd
          exact hnd.2
        cases hen0 : ks0.enabled with
        | false =>
            rw [checkAllGo_cons_disabled now sid0 ks0 rest act hen0]
            exact ih act hnd' hks' hsess
        | true =>
            by_cases ht0 : KILL_SWITCH_TIMEOUT ≤ now - ks0.last_heartbeat
            · cases hl0 : dlookup act sid0 with
              | some sess0 =>
                  rw [checkAllGo_cons_trig_some now sid0 ks0 rest act sess0 hen0 ht0 hl0]
                  have hsess' : dlookup (dpop sid0 act) sid = some sess := by
                    rw [dlookup_dpop_ne sid0 sid act (fun h => hsid h.symm), hsess]
                  obtain ⟨h1, h2, h3⟩ := ih (dpop sid0 act) hnd' hks' hsess'
                  refine ⟨?_, List.mem_cons_of_mem _ h2, h3⟩
                  rw [List.filter_cons_of_neg, h1]
                  simp [termFor, hsid]
              | none =>
                  rw [checkAllGo_cons_trig_none now sid0 ks0 rest act hen0 ht0 hl0]
                  obtain ⟨h1, h2, h3⟩ := ih act hnd' hks' hsess
                  exact ⟨h1, List.mem_cons_of_mem _ h2, h3⟩
            · rw [checkAllGo_cons_live now sid0 ks0 rest act hen0 ht0]
              exact ih act hnd' hks' hsess

theorem dkeys_dpopAll_subset {β : Type} (ids : List String) (l : List (String × β)) :
    dkeys (dpopAll ids l) ⊆ dkeys l := by
  induction ids generalizing l with
  | nil => exact fun _ h => h
  | cons i rest ih =>
      intro a ha
      exact dkeys_dpop_subset i l (ih (dpop i l) ha)

theorem not_mem_dkeys_dpopAll {β : Type} (ids : List String) (k : String)
    (l : List (String × β)) (h : k ∈ ids) : k ∉ dkeys (dpopAll ids l) := by
  induction ids generalizing l with
  | nil => cases h
  | cons i rest ih =>
      rcases List.mem_cons.1 h with rfl | hm
      · by_cases hr : k ∈ rest
        · exact ih (dpop k l) hr
        · have heq : dpopAll (k :: rest) l = dpopAll rest (dpop k l) := rfl
          rw [heq]
          intro hmem
          exact not_mem_dkeys_dpop k l (dkeys_dpopAll_subset rest (dpop k l) hmem)
      · exact ih (dpop i l) hm

/-- Splitting a list by a Boolean predicate preserves its length. -/
theorem filter_length_partition {α : Type} (p : α → Bool) (l : List α) :
    (l.filter p).length + (l.filter (fun a => !p a)).length = l.length := by
  induction l with
  | nil => rfl
  | cons x rest ih =>
      cases hp : p x <;> simp [List.filter_cons, hp, ← ih] <;> omega

/-! ## The claims

Each claim `Cn` of the specification review is settled by the theorem that
follows its doc comment; `..._witness` theorems instantiate the theorems
with hypotheses at concrete inputs. -/

/-- C4: for every set of stored retention records (the program only ever
stores records with `is_purged = False`, see `create_minimal_log`) and
every time `now`, `purge_expired_logs now` deletes no record whose
`purge_after` is strictly greater than `now`, deletes every record whose
`purge_after ≤ now` present at call time, returns the number deleted, and
is idempotent: a second run immediately after, with no intervening inserts,
returns 0. -/
theorem purge_expired_logs_correct (now : Nat) (logs : List ServerLog)
    (h : ∀ l ∈ logs, l.is_purged = false) :
    (∀ l ∈ logs, now < l.purge_after → l ∈ (purge_expired_logs now logs).2) ∧
    (∀ l ∈ logs, l.purge_after ≤ now → l ∉ (purge_expired_logs now logs).2) ∧
    (purge_expired_logs now logs).1 + (purge_expired_logs now logs).2.length = logs.length ∧
    (purge_expired_logs now (purge_expired_logs now logs).2).1 = 0 := by
  refine ⟨?_, ?_, ?_, ?_⟩
  · intro l hl hgt
    simp only [purge_expired_logs, List.mem_filter]
    refine ⟨hl, ?_⟩
    simp [purgeEligible, Nat.not_le.2 hgt]
  · intro l hl hle hmem
    simp only [purge_expired_logs, List.mem_filter] at hmem
    have hp := h l hl
    simp [purgeEligible, hle, hp] at hmem
  · exact filter_length_partition (purgeEligible now) logs
  · simp only [purge_expired_logs]
    rw [List.length_eq_zero, List.filter_filter, List.filter_eq_nil_iff]
    intro l _
    cases hq : purgeEligible now l <;> simp [hq]

/-- Closed instance of `purge_expired_logs_correct`: two records created at
0 s and 100 s (expiring at 300 s and 400 s); a purge at 350 s keeps the
younger record, deletes the older, reports one deletion, and a re-run
deletes nothing. -/
theorem purge_expired_logs_correct_witness :
    (∀ l ∈ [create_minimal_log 0 "session_start", create_minimal_log 100 "session_end"],
      l.is_purged = false) ∧
    ((∀ l ∈ [create_minimal_log 0 "session_start", create_minimal_log 100 "session_end"],
        350 < l.purge_after →
        l ∈ (purge_expired_logs 350
          [create_minimal_log 0 "session_start", create_minimal_log 100 "session_end"]).2) ∧
     (∀ l ∈ [create_minimal_log 0 "session_start", create_minimal_log 100 "session_end"],
        l.purge_after ≤ 350 →
        l ∉ (purge_expired_logs 350
          [create_minimal_log 0 "session_start", create_minimal_log 100 "session_end"]).2) ∧
     (purge_expired_logs 350
        [create_minimal_log 0 "session_start", create_minimal_log 100 "session_end"]).1 +
       (purge_expired_logs 350
        [create_minimal_log 0 "session_start", create_minimal_log 100 "session_end"]).2.length =
       [create_minimal_log 0 "session_start", create_minimal_log 100 "session_end"].length ∧
     (purge_expired_logs 350 (purge_expired_logs 350
        [create_minimal_log 0 "session_start", create_minimal_log 100 "session_end"]).2).1 = 0) :=
  ⟨by decide, purge_expired_logs_correct 350 _ (by decide)⟩

/-- C5: a retention record created at actual event time `now` stores a
`timestamp` truncated to the start of the containing hour (it is a
multiple of 3600 s and `now` lies within the hour it starts), while
`purge_after` is the untruncated `now` plus the retention window. -/
theorem create_minimal_log_coarsening (now : Nat) (event_type : String)
    (server_id : Option String) (duration_seconds bytes_transferred : Option Nat)
    (protocol : Option String) (region : Option (List Char)) :
    (create_minimal_log now event_type server_id duration_seconds bytes_transferred
        protocol region).timestamp % 3600 = 0 ∧
    (create_minimal_log now event_type server_id duration_seconds bytes_transferred
        protocol region).timestamp ≤ now ∧
    now < (create_minimal_log now event_type server_id duration_seconds bytes_transferred
        protocol region).timestamp + 3600 ∧
    (create_minimal_log now event_type server_id duration_seconds bytes_transferred
        protocol region).purge_after = now + NO_LOGS_RETENTION_MINUTES * 60 := by
  have hdm := Nat.div_add_mod now 3600
  have hlt : now % 3600 < 3600 := Nat.mod_lt now (by norm_num)
  refine ⟨?_, ?_, ?_, rfl⟩
  · simp [create_minimal_log, Nat.mul_mod_left]
  · simp only [create_minimal_log]
    omega
  · simp only [create_minimal_log]
    omega

/-- C8: every retention record built by `create_minimal_log` — the single
constructor through which every lifecycle event appends to the store —
has a `server_id` field that is always `none` (the `server_id` argument is
deliberately discarded) and a region code of at most 2 characters; the
`ServerLog` row type carries no session-identifier and no caller-identity
field at all. -/
theorem create_minimal_log_anonymized (now : Nat) (event_type : String)
    (server_id : Option String) (duration_seconds bytes_transferred : Option Nat)
    (protocol : Option String) (region : Option (List Char)) :
    (create_minimal_log now event_type server_id duration_seconds bytes_transferred
        protocol region).server_id = none ∧
    (∀ r, (create_minimal_log now event_type server_id duration_seconds bytes_transferred
        protocol region).anonymized_region = some r → r.length ≤ 2) := by
  refine ⟨rfl, ?_⟩
  intro r hr
  simp only [create_minimal_log] at hr
  cases region with
  | none => cases hr
  | some reg =>
      have hr' : (if 2 ≤ reg.length then some ((reg.take 2).map Char.toUpper) else none) =
          some r := hr
      by_cases h2 : 2 ≤ reg.length
      · rw [if_pos h2] at hr'
        have hre : r = (reg.take 2).map Char.toUpper := (Option.some.inj hr').symm
        rw [hre, List.length_map, List.length_take]
        omega
      · rw [if_neg h2] at hr'
        cases hr'

/-- C10: a liveness report for a session id absent from the session
registry removes any lingering kill-switch registry entry for that id and
reports `NotFound`; afterwards neither registry contains the id. -/
theorem heartbeat_absent_purges_registry (now : Nat) (sid : String) (st : St)
    (h : dlookup st.active_sessions sid = none) :
    heartbeat now sid st =
      (.error .notFound, { st with kill_switch_registry := dpop sid st.kill_switch_registry }) ∧
    sid ∉ dkeys (heartbeat now sid st).2.active_sessions ∧
    sid ∉ dkeys (heartbeat now sid st).2.kill_switch_registry := by
  have heq : heartbeat now sid st =
      (.error .notFound, { st with kill_switch_registry := dpop sid st.kill_switch_registry }) := by
    simp [heartbeat, h]
  refine ⟨heq, ?_, ?_⟩
  · rw [heq]
    exact (dlookup_eq_none_iff st.active_sessions sid).1 h
  · rw [heq]
    exact not_mem_dkeys_dpop sid st.kill_switch_registry

/-- Closed instance of `heartbeat_absent_purges_registry`: a heartbeat for
an unknown session id, with a lingering kill-switch record, removes that
record and reports `NotFound`. -/
theorem heartbeat_absent_purges_registry_witness :
    dlookup (St.mk [] [("s", ⟨true, 0, 0, .active⟩)] []).active_sessions "s" = none ∧
    (heartbeat 5 "s" (St.mk [] [("s", ⟨true, 0, 0, .active⟩)] []) =
      (.error .notFound, St.mk [] [] []) ∧
     "s" ∉ dkeys (heartbeat 5 "s" (St.mk [] [("s", ⟨true, 0, 0, .active⟩)] [])).2.active_sessions ∧
     "s" ∉ dkeys (heartbeat 5 "s" (St.mk [] [("s", ⟨true, 0, 0, .active⟩)] [])).2.kill_switch_registry) :=
  ⟨by decide, heartbeat_absent_purges_registry 5 "s" _ (by decide)⟩

/-- C9, counterexample to the claim as stated: the empty string is an
unknown id (no registry ever holds it), yet because the source's guards
are Python truthiness tests (`not session_id`, `if session_id:`), at
`session_id = ""` `GET /api/status` on a nonempty session registry falls
back to the most recently inserted session and returns its *connected*
view — not the "disconnected" NotFound-style value — and
`GET /api/kill-switch/status` returns the all-sessions summary — not the
"not registered" value.  So "an unknown id yields a NotFound-style result
value" fails at the unknown id `""`. -/
theorem status_empty_id_cex :
    dlookup sampleSt.active_sessions "" = none ∧
    (status 31 (some "") sampleSt).1 = .connected "s" 31 ∧
    (status 31 (some "") sampleSt).1 ≠ .disconnected sampleSt.active_sessions.length ∧
    dlookup sampleSt.kill_switch_registry "" = none ∧
    (kill_switch_status 31 (some "") sampleSt).1 =
      .summary 1 [("s", .active, 0, 31)] ∧
    (kill_switch_status 31 (some "") sampleSt).1 ≠ .notRegistered "" := by
  refine ⟨by decide, by decide, by decide, by decide, by decide, by decide⟩

/-- C9 as amended: `GET /api/status` and `GET /api/kill-switch/status` are
pure reads — they return the shared state unchanged for every argument,
known or unknown — and a *non-empty* unknown id yields the
"disconnected" / "not registered" result value rather than an exception;
the empty string is falsy in the source's guards and is treated exactly
like an omitted id (fallback to the most recent session / the
all-sessions summary). -/
theorem status_reads (now : Nat) (sid : String) (o : Option String) (st : St) :
    (status now o st).2 = st ∧
    (kill_switch_status now o st).2 = st ∧
    (sid.isEmpty = false → dlookup st.active_sessions sid = none →
      (status now (some sid) st).1 = .disconnected st.active_sessions.length) ∧
    (sid.isEmpty = false → dlookup st.kill_switch_registry sid = none →
      (kill_switch_status now (some sid) st).1 = .notRegistered sid) ∧
    status now (some "") st = status now none st ∧
    kill_switch_status now (some "") st = kill_switch_status now none st := by
  have he0 : ("" : String).isEmpty = true := rfl
  refine ⟨?_, ?_, ?_, ?_, ?_, ?_⟩
  · simp only [status]
    repeat first
    | rfl
    | split
  · simp only [kill_switch_status]
    repeat first
    | rfl
    | split
  · intro hne h
    simp [status, strFalsy, hne, h]
  · intro hne h
    simp [kill_switch_status, hne, h]
  · cases hae : st.active_sessions.isEmpty with
    | true =>
        have hnil : st.active_sessions = [] := List.isEmpty_iff.1 hae
        simp [status, strFalsy, hnil, he0]
    | false => simp [status, strFalsy, hae, he0]
  · simp [kill_switch_status, he0]

/-- Closed instance of `status_reads`: for the non-empty unknown id `"t"`
both endpoints leave `sampleSt` unchanged and return the NotFound-style
values, and the empty id behaves exactly like an omitted one. -/
theorem status_reads_witness :
    ("t" : String).isEmpty = false ∧
    dlookup sampleSt.active_sessions "t" = none ∧
    dlookup sampleSt.kill_switch_registry "t" = none ∧
    ((status 3 (some "t") sampleSt).2 = sampleSt ∧
     (kill_switch_status 3 (some "t") sampleSt).2 = sampleSt ∧
     (status 3 (some "t") sampleSt).1 = .disconnected 1 ∧
     (kill_switch_status 3 (some "t") sampleSt).1 = .notRegistered "t" ∧
     status 3 (some "") sampleSt = status 3 none sampleSt ∧
     kill_switch_status 3 (some "") sampleSt = kill_switch_status 3 none sampleSt) :=
  ⟨by decide, by decide, by decide,
   (status_reads 3 "t" (some "t") sampleSt).1,
   (status_reads 3 "t" (some "t") sampleSt).2.1,
   (status_reads 3 "t" (some "t") sampleSt).2.2.1 (by decide) (by decide),
   (status_reads 3 "t" (some "t") sampleSt).2.2.2.1 (by decide) (by decide),
   (status_reads 3 "t" (some "t") sampleSt).2.2.2.2.1,
   (status_reads 3 "t" (some "t") sampleSt).2.2.2.2.2⟩

/-- C6, counterexample to the claim as stated: when the session exists but
no liveness record does ("never registered"), the liveness report fails
with a 400 `badRequest` ("Kill switch not registered for this session"),
not with `NotFound` — so "fails with NotFound exactly when no liveness
record exists" is false. -/
theorem heartbeat_notfound_cex :
    dlookup (St.mk [("s", ⟨"srv-1", none, 0, none, false, "alice"⟩)] [] []).kill_switch_registry
      "s" = none ∧
    (heartbeat 5 "s" (St.mk [("s", ⟨"srv-1", none, 0, none, false, "alice"⟩)] [] [])).1 =
      .error .badRequest ∧
    Err.badRequest ≠ Err.notFound := by
  refine ⟨by decide, ?_, by decide⟩
  rfl

/-- C6 as amended: the liveness report fails with `NotFound` exactly when
the session id is absent from the session registry (covering "already
terminated by the Monitor" — it never succeeds then, and removes any
lingering record); when the session exists but no liveness record does it
fails with the distinct 400 error instead; on success it sets
`last_heartbeat := now`, forces the state to `Active`, resets
`missed_heartbeats` to 0, and returns the refreshed state. -/
theorem heartbeat_report_liveness (now : Nat) (sid : String) (st : St) :
    (dlookup st.active_sessions sid = none →
       (heartbeat now sid st).1 = .error .notFound ∧
       sid ∉ dkeys (heartbeat now sid st).2.kill_switch_registry) ∧
    (∀ sess, dlookup st.active_sessions sid = some sess →
       dlookup st.kill_switch_registry sid = none →
       heartbeat now sid st = (.error .badRequest, st)) ∧
    (∀ sess ks, dlookup st.active_sessions sid = some sess →
       dlookup st.kill_switch_registry sid = some ks →
       (heartbeat now sid st).1 =
         .ok { status := .active, time_since_last_heartbeat := now - ks.last_heartbeat } ∧
       dlookup (heartbeat now sid st).2.kill_switch_registry sid =
         some { ks with last_heartbeat := now, missed_heartbeats := 0, status := .active }) := by
  refine ⟨?_, ?_, ?_⟩
  · intro h
    obtain ⟨heq, _, hreg⟩ := heartbeat_absent_purges_registry now sid st h
    exact ⟨by rw [heq], hreg⟩
  · intro sess hs hr
    simp [heartbeat, hs, kill_switch_heartbeat, hr]
  · intro sess ks hs hr
    constructor
    · simp [heartbeat, hs, kill_switch_heartbeat, hr]
    · simp only [heartbeat, hs, kill_switch_heartbeat, hr]
      exact dlookup_dinsert_self sid _ st.kill_switch_registry

/-- Closed instance of `heartbeat_report_liveness`, success path: a
heartbeat at 7 s for a registered session refreshes its record. -/
theorem heartbeat_report_liveness_witness :
    dlookup (St.mk [("s", ⟨"srv-1", none, 0, none, true, "alice"⟩)]
        [("s", ⟨true, 2, 1, .warning⟩)] []).active_sessions "s" =
      some ⟨"srv-1", none, 0, none, true, "alice"⟩ ∧
    dlookup (St.mk [("s", ⟨"srv-1", none, 0, none, true, "alice"⟩)]
        [("s", ⟨true, 2, 1, .warning⟩)] []).kill_switch_registry "s" =
      some ⟨true, 2, 1, .warning⟩ ∧
    ((heartbeat 7 "s" (St.mk [("s", ⟨"srv-1", none, 0, none, true, "alice"⟩)]
        [("s", ⟨true, 2, 1, .warning⟩)] [])).1 =
      .ok { status := .active, time_since_last_heartbeat := 5 } ∧
     dlookup (heartbeat 7 "s" (St.mk [("s", ⟨"srv-1", none, 0, none, true, "alice"⟩)]
        [("s", ⟨true, 2, 1, .warning⟩)] [])).2.kill_switch_registry "s" =
      some ⟨true, 7, 0, .active⟩) :=
  ⟨by decide, by decide,
   (heartbeat_report_liveness 7 "s" _).2.2 ⟨"srv-1", none, 0, none, true, "alice"⟩
     ⟨true, 2, 1, .warning⟩ (by decide) (by decide)⟩

/-- Registration stores a record with `status = "active"` and
`last_heartbeat = now` — a fresh record satisfies the reachability
invariant used by `kill_switch_transition_rule`. -/
theorem kill_switch_register_active (now : Nat) (sid : String)
    (reg : List (String × KSRecord)) :
    dlookup (kill_switch_register now sid true reg) sid =
      some { enabled := true, last_heartbeat := now, missed_heartbeats := 0,
             status := .active } := by
  simp only [kill_switch_register, Bool.not_true, Bool.false_eq_true, if_false]
  exact dlookup_dinsert_self sid _ reg

/-- A successful liveness report rewrites the record to
`status = "active"`, `last_heartbeat = now` — re-establishing the
reachability invariant used by `kill_switch_transition_rule`. -/
theorem kill_switch_heartbeat_active (now : Nat) (sid : String) (ks : KSRecord)
    (reg : List (String × KSRecord)) (h : dlookup reg sid = some ks) :
    dlookup (kill_switch_heartbeat now sid reg).2 sid =
      some { ks with last_heartbeat := now, missed_heartbeats := 0, status := .active } := by
  simp only [kill_switch_heartbeat, h]
  exact dlookup_dinsert_self sid _ reg

/-- The scan evaluation preserves the reachability invariant: it never
writes a non-`active` status while the record is within one heartbeat
interval of its evidence, and it never touches `last_heartbeat`.  Together
with `kill_switch_register_active` and `kill_switch_heartbeat_active` this
shows every record the Monitor ever evaluates satisfies the invariant
hypothesis of `kill_switch_transition_rule`. -/
theorem checkRecord_inv (now now' : Nat) (ks : KSRecord) (hnn : now ≤ now')
    (h : ks.status = .active ∨ ks.last_heartbeat + KILL_SWITCH_HEARTBEAT_INTERVAL ≤ now) :
    (checkRecord now ks).last_heartbeat = ks.last_heartbeat ∧
    ((checkRecord now ks).status = .active ∨
      (checkRecord now ks).last_heartbeat + KILL_SWITCH_HEARTBEAT_INTERVAL ≤ now') := by
  simp only [checkRecord]
  by_cases ht : KILL_SWITCH_TIMEOUT ≤ now - ks.last_heartbeat
  · rw [if_pos ht]
    refine ⟨rfl, Or.inr ?_⟩
    simp only [KILL_SWITCH_TIMEOUT, KILL_SWITCH_HEARTBEAT_INTERVAL] at *
    omega
  · rw [if_neg ht]
    by_cases hm : 1 ≤ (now - ks.last_heartbeat) / KILL_SWITCH_HEARTBEAT_INTERVAL
    · rw [if_pos hm]
      refine ⟨rfl, Or.inr ?_⟩
      have h10 : KILL_SWITCH_HEARTBEAT_INTERVAL ≤ now - ks.last_heartbeat :=
        (Nat.one_le_div_iff (by decide)).1 hm
      simp only [KILL_SWITCH_HEARTBEAT_INTERVAL] at *
      omega
    · rw [if_neg hm]
      rcases h with h | h
      · exact ⟨rfl, Or.inl h⟩
      · exfalso
        apply hm
        rw [Nat.one_le_div_iff (by decide : 0 < KILL_SWITCH_HEARTBEAT_INTERVAL)]
        simp only [KILL_SWITCH_HEARTBEAT_INTERVAL] at *
        omega

/-- C2: for every kill-switch record evaluated on a monitor tick (such
records always satisfy the reachability invariant — they were written
`Active` by `kill_switch_register` / `kill_switch_heartbeat` and the
evaluation preserves it, `checkRecord_inv`), letting
`elapsed = now - last_heartbeat`: if `elapsed < heartbeat_interval` the
evaluated record is `Active` (with zero missed heartbeats); else if
`elapsed < timeout` it is `Warning` with
`missed_count = elapsed / heartbeat_interval`; else it is `Triggered`. -/
theorem kill_switch_transition_rule (now : Nat) (ks : KSRecord)
    (hen : ks.enabled = true)
    (hmono : ks.last_heartbeat ≤ now)
    (hreach : ks.status = .active ∨ ks.last_heartbeat + KILL_SWITCH_HEARTBEAT_INTERVAL ≤ now) :
    (now - ks.last_heartbeat < KILL_SWITCH_HEARTBEAT_INTERVAL →
        (checkRecord now ks).status = .active ∧ (checkRecord now ks).missed_heartbeats = 0) ∧
    (KILL_SWITCH_HEARTBEAT_INTERVAL ≤ now - ks.last_heartbeat →
        now - ks.last_heartbeat < KILL_SWITCH_TIMEOUT →
        (checkRecord now ks).status = .warning ∧
        (checkRecord now ks).missed_heartbeats =
          (now - ks.last_heartbeat) / KILL_SWITCH_HEARTBEAT_INTERVAL) ∧
    (KILL_SWITCH_TIMEOUT ≤ now - ks.last_heartbeat →
        (checkRecord now ks).status = .triggered) := by
  refine ⟨?_, ?_, ?_⟩
  · intro hfast
    have hst : ks.status = .active := by
      rcases hreach with h | h
      · exact h
      · exfalso
        simp only [KILL_SWITCH_HEARTBEAT_INTERVAL] at *
        omega
    have hm0 : (now - ks.last_heartbeat) / KILL_SWITCH_HEARTBEAT_INTERVAL = 0 :=
      Nat.div_eq_of_lt hfast
    have hnt : ¬ KILL_SWITCH_TIMEOUT ≤ now - ks.last_heartbeat := by
      simp only [KILL_SWITCH_TIMEOUT, KILL_SWITCH_HEARTBEAT_INTERVAL] at *
      omega
    have hnm : ¬ 1 ≤ (now - ks.last_heartbeat) / KILL_SWITCH_HEARTBEAT_INTERVAL := by
      rw [hm0]; omega
    simp only [checkRecord, if_neg hnt, if_neg hnm]
    exact ⟨hst, hm0⟩
  · intro hmiss hwarn
    have hnt : ¬ KILL_SWITCH_TIMEOUT ≤ now - ks.last_heartbeat := Nat.not_le.2 hwarn
    have hm1 : 1 ≤ (now - ks.last_heartbeat) / KILL_SWITCH_HEARTBEAT_INTERVAL :=
      (Nat.one_le_div_iff (by decide)).2 hmiss
    simp [checkRecord, if_neg hnt, if_pos hm1]
  · intro htrig
    simp only [checkRecord, if_pos htrig]

/-- Closed instances of `kill_switch_transition_rule` in all three regimes:
at `now = 25` a record last seen at 0 is `Warning` with 2 missed
heartbeats; at `now = 7` it is `Active`; at `now = 31` it is `Triggered`
(the interval is 10 s, the timeout 30 s). -/
theorem kill_switch_transition_rule_witness :
    ((⟨true, 0, 0, .active⟩ : KSRecord).enabled = true ∧
     (⟨true, 0, 0, .active⟩ : KSRecord).last_heartbeat ≤ 25 ∧
     ((⟨true, 0, 0, .active⟩ : KSRecord).status = .active ∨
       (⟨true, 0, 0, .active⟩ : KSRecord).last_heartbeat +
         KILL_SWITCH_HEARTBEAT_INTERVAL ≤ 25)) ∧
    ((checkRecord 7 ⟨true, 0, 0, .active⟩).status = .active ∧
     (checkRecord 7 ⟨true, 0, 0, .active⟩).missed_heartbeats = 0) ∧
    ((checkRecord 25 ⟨true, 0, 0, .active⟩).status = .warning ∧
     (checkRecord 25 ⟨true, 0, 0, .active⟩).missed_heartbeats = 2) ∧
    (checkRecord 31 ⟨true, 0, 0, .active⟩).status = .triggered :=
  ⟨⟨by decide, by decide, Or.inl (by decide)⟩,
   (kill_switch_transition_rule 7 ⟨true, 0, 0, .active⟩ (by decide) (by decide)
      (Or.inl (by decide))).1 (by decide),
   by
     have h := (kill_switch_transition_rule 25 ⟨true, 0, 0, .active⟩ (by decide) (by decide)
       (Or.inl (by decide))).2.1 (by decide) (by decide)
     simpa using h,
   (kill_switch_transition_rule 31 ⟨true, 0, 0, .active⟩ (by decide) (by decide)
      (Or.inl (by decide))).2.2 (by decide)⟩

/-- C7, counterexample to the claim as stated: `disconnect` performs no
ownership check — a caller (`"bob"`) other than the session's owner
(`"alice"`) succeeds and is returned the duration, instead of failing with
`NotFound`. -/
theorem disconnect_ownership_cex :
    (St.mk [("s", ⟨"srv-1", none, 0, none, false, "alice"⟩)] [] []).active_sessions =
      [("s", ⟨"srv-1", none, 0, none, false, "alice"⟩)] ∧
    ("alice" : String) ≠ "bob" ∧
    (disconnect 10 "s" "bob" 0 (St.mk [("s", ⟨"srv-1", none, 0, none, false, "alice"⟩)] [] [])).1 =
      .ok 10 := by
  refine ⟨rfl, by decide, ?_⟩
  rfl

/-- C7 as amended: `disconnect` fails with `NotFound` exactly when the
session id does not exist — the owner is not checked, any authenticated
caller succeeds.  On success it removes the session and its liveness
record, appends a `"session_end"` retention record carrying the computed
duration, and returns the duration. -/
theorem disconnect_end_session (now : Nat) (sid uid : String) (bytes : Nat) (st : St) :
    (dlookup st.active_sessions sid = none →
        disconnect now sid uid bytes st = (.error .notFound, st)) ∧
    (∀ sess, dlookup st.active_sessions sid = some sess →
        (disconnect now sid uid bytes st).1 = .ok (now - sess.connected_at) ∧
        sid ∉ dkeys (disconnect now sid uid bytes st).2.active_sessions ∧
        sid ∉ dkeys (disconnect now sid uid bytes st).2.kill_switch_registry ∧
        (disconnect now sid uid bytes st).2.server_logs =
          st.server_logs ++ [create_minimal_log now "session_end" none
            (some (now - sess.connected_at)) (some bytes) sess.protocol sess.server_flag]) := by
  constructor
  · intro h
    simp [disconnect, h]
  · intro sess hs
    refine ⟨?_, ?_, ?_, ?_⟩
    · simp [disconnect, hs]
    · simp only [disconnect, hs]
      exact not_mem_dkeys_dpop sid st.active_sessions
    · simp only [disconnect, hs]
      exact not_mem_dkeys_dpop sid st.kill_switch_registry
    · simp [disconnect, hs]

/-- Closed instance of `disconnect_end_session`, success path for a caller
distinct from the owner. -/
theorem disconnect_end_session_witness :
    dlookup (St.mk [("s", ⟨"srv-1", none, 4, some "WireGuard", true, "alice"⟩)]
        [("s", ⟨true, 4, 0, .active⟩)] []).active_sessions "s" =
      some ⟨"srv-1", none, 4, some "WireGuard", true, "alice"⟩ ∧
    ((disconnect 10 "s" "bob" 123
        (St.mk [("s", ⟨"srv-1", none, 4, some "WireGuard", true, "alice"⟩)]
          [("s", ⟨true, 4, 0, .active⟩)] [])).1 = .ok 6 ∧
     "s" ∉ dkeys (disconnect 10 "s" "bob" 123
        (St.mk [("s", ⟨"srv-1", none, 4, some "WireGuard", true, "alice"⟩)]
          [("s", ⟨true, 4, 0, .active⟩)] [])).2.active_sessions ∧
     "s" ∉ dkeys (disconnect 10 "s" "bob" 123
        (St.mk [("s", ⟨"srv-1", none, 4, some "WireGuard", true, "alice"⟩)]
          [("s", ⟨true, 4, 0, .active⟩)] [])).2.kill_switch_registry ∧
     (disconnect 10 "s" "bob" 123
        (St.mk [("s", ⟨"srv-1", none, 4, some "WireGuard", true, "alice"⟩)]
          [("s", ⟨true, 4, 0, .active⟩)] [])).2.server_logs =
       [] ++ [create_minimal_log 10 "session_end" none (some 6) (some 123)
          (some "WireGuard") none]) :=
  ⟨by decide,
   (disconnect_end_session 10 "s" "bob" 123 _).2
     ⟨"srv-1", none, 4, some "WireGuard", true, "alice"⟩ (by decide)⟩

/-- C3, counterexample to the claim as stated: a monitor tick that observes
a `Triggered` record whose session still exists removes both, but appends
no retention record at all — `kill_switch_check_all` never calls
`create_minimal_log`, so the promised "liveness-triggered termination"
`RetentionRecord` (with its distinct event kind) does not exist.  Here the
tick at 31 s terminates session `"s"` yet the retention store stays empty. -/
theorem kill_switch_no_retention_record_cex :
    (kill_switch_check_all 31 sampleSt).1 =
      [{ session_id := "s", reason := "heartbeat_timeout", missed_heartbeats := 3,
         elapsed := 31, server_id := "srv-1" }] ∧
    (kill_switch_check_all 31 sampleSt).2.active_sessions = [] ∧
    sampleSt.server_logs = [] ∧
    (kill_switch_check_all 31 sampleSt).2.server_logs = [] := by
  refine ⟨by decide, by decide, rfl, by decide⟩

/-- C3 as amended: whenever a monitor tick observes a timed-out (hence
`Triggered`) liveness record whose session still exists, it removes the
session and the liveness record and emits — in the tick's returned
`terminated` list, for callers awaiting the result — exactly one
termination entry carrying the `missed_heartbeats` count and the elapsed
time; it appends no retention record (the retention store is unchanged). -/
theorem kill_switch_triggered_teardown (now : Nat) (st : St) (sid : String)
    (ks : KSRecord) (sess : Sess)
    (hnd : (dkeys st.kill_switch_registry).Nodup)
    (hks : dlookup st.kill_switch_registry sid = some ks)
    (hen : ks.enabled = true)
    (ht : KILL_SWITCH_TIMEOUT ≤ now - ks.last_heartbeat)
    (hsess : dlookup st.active_sessions sid = some sess) :
    (kill_switch_check_all now st).1.filter (termFor sid) =
      [{ session_id := sid, reason := "heartbeat_timeout",
         missed_heartbeats := (now - ks.last_heartbeat) / KILL_SWITCH_HEARTBEAT_INTERVAL,
         elapsed := now - ks.last_heartbeat, server_id := sess.server_id }] ∧
    sid ∉ dkeys (kill_switch_check_all now st).2.active_sessions ∧
    sid ∉ dkeys (kill_switch_check_all now st).2.kill_switch_registry ∧
    (kill_switch_check_all now st).2.server_logs = st.server_logs := by
  obtain ⟨h1, h2, h3⟩ :=
    checkAllGo_stale now st.kill_switch_registry st.active_sessions sid ks sess
      hnd hks hen ht hsess
  rcases hgo : checkAllGo now st.kill_switch_registry st.active_sessions with ⟨r, t, e, a⟩
  rw [hgo] at h1 h2 h3
  have hres : kill_switch_check_all now st =
      (t, { st with kill_switch_registry := dpopAll e r, active_sessions := a }) := by
    simp [kill_switch_check_all, hgo]
  rw [hres]
  exact ⟨h1, h3, not_mem_dkeys_dpopAll e sid r h2, rfl⟩

/-- Closed instance of `kill_switch_triggered_teardown` on `sampleSt` at
31 s: one termination entry with 3 missed heartbeats and 31 s elapsed, both
registries cleared of `"s"`, retention store unchanged. -/
theorem kill_switch_triggered_teardown_witness :
    (dkeys sampleSt.kill_switch_registry).Nodup ∧
    dlookup sampleSt.kill_switch_registry "s" =
      some { enabled := true, last_heartbeat := 0, missed_heartbeats := 0,
             status := .active } ∧
    KILL_SWITCH_TIMEOUT ≤ 31 - 0 ∧
    dlookup sampleSt.active_sessions "s" = some sampleSess ∧
    ((kill_switch_check_all 31 sampleSt).1.filter (termFor "s") =
      [{ session_id := "s", reason := "heartbeat_timeout", missed_heartbeats := 3,
         elapsed := 31, server_id := "srv-1" }] ∧
     "s" ∉ dkeys (kill_switch_check_all 31 sampleSt).2.active_sessions ∧
     "s" ∉ dkeys (kill_switch_check_all 31 sampleSt).2.kill_switch_registry ∧
     (kill_switch_check_all 31 sampleSt).2.server_logs = sampleSt.server_logs) :=
  ⟨by decide, by decide, by decide, by decide,
   kill_switch_triggered_teardown 31 sampleSt "s"
     { enabled := true, last_heartbeat := 0, missed_heartbeats := 0, status := .active }
     sampleSess (by decide) (by decide) rfl (by decide) (by decide)⟩

/-- C1: an explicit disconnect and a Monitor-triggered timeout removal
never both succeed.  (1) If the disconnect wins, any later monitor tick
observes the session absent and performs no teardown for it — no
termination entry, no registry change for that id.  (2) If the Monitor
wins, a later disconnect observes the session absent and fails with
`NotFound`, changing nothing.  (3) A session with no liveness report for
at least the timeout is removed by the next monitor tick exactly once —
and any later tick, no matter how many have elapsed, emits nothing further
for it. -/
theorem kill_switch_exactly_once_removal (st : St) (sid uid : String)
    (bytes now now' : Nat) :
    (∀ res st', disconnect now sid uid bytes st = (.ok res, st') →
        (kill_switch_check_all now' st').1.filter (termFor sid) = [] ∧
        sid ∉ dkeys (kill_switch_check_all now' st').2.active_sessions ∧
        sid ∉ dkeys (kill_switch_check_all now' st').2.kill_switch_registry) ∧
    (∀ tm, tm ∈ (kill_switch_check_all now st).1 → tm.session_id = sid →
        disconnect now' sid uid bytes (kill_switch_check_all now st).2 =
          (.error .notFound, (kill_switch_check_all now st).2)) ∧
    (∀ ks sess,
        (dkeys st.kill_switch_registry).Nodup →
        dlookup st.kill_switch_registry sid = some ks →
        ks.enabled = true →
        ks.last_heartbeat + KILL_SWITCH_TIMEOUT ≤ now →
        dlookup st.active_sessions sid = some sess →
        ((kill_switch_check_all now st).1.filter (termFor sid)).length = 1 ∧
        sid ∉ dkeys (kill_switch_check_all now st).2.active_sessions ∧
        sid ∉ dkeys (kill_switch_check_all now st).2.kill_switch_registry ∧
        (kill_switch_check_all now' (kill_switch_check_all now st).2).1.filter
          (termFor sid) = [] ∧
        sid ∉ dkeys
          (kill_switch_check_all now' (kill_switch_check_all now st).2).2.active_sessions ∧
        sid ∉ dkeys
          (kill_switch_check_all now' (kill_switch_check_all now st).2).2.kill_switch_registry) := by
  refine ⟨?_, ?_, ?_⟩
  · intro res st' hdc
    cases hl : dlookup st.active_sessions sid with
    | none => simp [disconnect, hl] at hdc
    | some sess =>
        simp only [disconnect, hl, Prod.mk.injEq] at hdc
        obtain ⟨-, hst'⟩ := hdc
        subst hst'
        rcases hgo : checkAllGo now' (dpop sid st.kill_switch_registry)
            (dpop sid st.active_sessions) with ⟨r, t, e, a⟩
        obtain ⟨ha1, ha2, ha3⟩ :=
          checkAllGo_absent now' (dpop sid st.kill_switch_registry)
            (dpop sid st.active_sessions) sid (not_mem_dkeys_dpop sid st.kill_switch_registry)
        rw [hgo] at ha1 ha2 ha3
        have hres : kill_switch_check_all now'
            { active_sessions := dpop sid st.active_sessions,
              kill_switch_registry := dpop sid st.kill_switch_registry,
              server_logs := st.server_logs ++ [create_minimal_log now "session_end" none
                (some (now - sess.connected_at)) (some bytes) sess.protocol sess.server_flag] } =
            (t, { active_sessions := a, kill_switch_registry := dpopAll e r,
                  server_logs := st.server_logs ++ [create_minimal_log now "session_end" none
                    (some (now - sess.connected_at)) (some bytes) sess.protocol
                    sess.server_flag] }) := by
          simp [kill_switch_check_all, hgo]
        rw [hres]
        refine ⟨?_, ?_, ?_⟩
        · rw [List.filter_eq_nil_iff]
          intro tm hm
          simpa [termFor] using ha2 tm hm
        · apply (dlookup_eq_none_iff a sid).1
          rw [ha3]
          exact (dlookup_eq_none_iff _ _).2 (not_mem_dkeys_dpop sid st.active_sessions)
        · intro hmem
          exact ha1 (dkeys_dpopAll_subset e r hmem)
  · intro tm hmem hsid
    rcases hgo : checkAllGo now st.kill_switch_registry st.active_sessions with ⟨r, t, e, a⟩
    have hres : kill_switch_check_all now st =
        (t, { st with kill_switch_registry := dpopAll e r, active_sessions := a }) := by
      simp [kill_switch_check_all, hgo]
    rw [hres] at hmem ⊢
    have hpop := checkAllGo_term_popped now st.kill_switch_registry st.active_sessions tm
      (by rw [hgo]; exact hmem)
    rw [hgo] at hpop
    obtain ⟨hna, -⟩ := hpop
    rw [hsid] at hna
    have hnone : dlookup a sid = none := (dlookup_eq_none_iff a sid).2 hna
    simp [disconnect, hnone]
  · intro ks sess hnd hks hen hto hsess
    have ht : KILL_SWITCH_TIMEOUT ≤ now - ks.last_heartbeat := by omega
    obtain ⟨h1, h2, h3⟩ :=
      checkAllGo_stale now st.kill_switch_registry st.active_sessions sid ks sess
        hnd hks hen ht hsess
    rcases hgo : checkAllGo now st.kill_switch_registry st.active_sessions with ⟨r, t, e, a⟩
    rw [hgo] at h1 h2 h3
    have hres : kill_switch_check_all now st =
        (t, { st with kill_switch_registry := dpopAll e r, active_sessions := a }) := by
      simp [kill_switch_check_all, hgo]
    rw [hres]
    have hreg1 : sid ∉ dkeys (dpopAll e r) := not_mem_dkeys_dpopAll e sid r h2
    rcases hgo2 : checkAllGo now' (dpopAll e r) a with ⟨r2, t2, e2, a2⟩
    obtain ⟨hb1, hb2, hb3⟩ := checkAllGo_absent now' (dpopAll e r) a sid hreg1
    rw [hgo2] at hb1 hb2 hb3
    have hres2 : kill_switch_check_all now'
        { st with kill_switch_registry := dpopAll e r, active_sessions := a } =
        (t2, { st with kill_switch_registry := dpopAll e2 r2, active_sessions := a2 }) := by
      simp [kill_switch_check_all, hgo2]
    rw [hres2]
    refine ⟨by rw [h1]; rfl, h3, hreg1, ?_, ?_, ?_⟩
    · rw [List.filter_eq_nil_iff]
      intro tm hm
      simpa [termFor] using hb2 tm hm
    · apply (dlookup_eq_none_iff a2 sid).1
      rw [hb3]
      exact (dlookup_eq_none_iff a sid).2 h3
    · intro hmem
      exact hb1 (dkeys_dpopAll_subset e2 r2 hmem)

/-- Closed instance of `kill_switch_exactly_once_removal` on `sampleSt`
(heartbeat last seen at 0 s, timeout 30 s): (1) after an explicit
disconnect at 31 s a tick at 62 s does nothing for `"s"`; (2) after the
tick at 31 s terminates `"s"`, a disconnect at 62 s fails with `NotFound`
and changes nothing; (3) the tick at 31 s removes `"s"` exactly once and
the tick at 62 s emits nothing further. -/
theorem kill_switch_exactly_once_removal_witness :
    ((kill_switch_check_all 62
        (St.mk [] []
          [create_minimal_log 31 "session_end" none (some 31) (some 0) none none])).1.filter
        (termFor "s") = [] ∧
     "s" ∉ dkeys (kill_switch_check_all 62
        (St.mk [] []
          [create_minimal_log 31 "session_end" none (some 31) (some 0) none
            none])).2.active_sessions ∧
     "s" ∉ dkeys (kill_switch_check_all 62
        (St.mk [] []
          [create_minimal_log 31 "session_end" none (some 31) (some 0) none
            none])).2.kill_switch_registry) ∧
    (disconnect 62 "s" "alice" 0 (kill_switch_check_all 31 sampleSt).2 =
      (.error .notFound, (kill_switch_check_all 31 sampleSt).2)) ∧
    (((kill_switch_check_all 31 sampleSt).1.filter (termFor "s")).length = 1 ∧
     "s" ∉ dkeys (kill_switch_check_all 31 sampleSt).2.active_sessions ∧
     "s" ∉ dkeys (kill_switch_check_all 31 sampleSt).2.kill_switch_registry ∧
     (kill_switch_check_all 62 (kill_switch_check_all 31 sampleSt).2).1.filter
        (termFor "s") = [] ∧
     "s" ∉ dkeys
        (kill_switch_check_all 62 (kill_switch_check_all 31 sampleSt).2).2.active_sessions ∧
     "s" ∉ dkeys
        (kill_switch_check_all 62 (kill_switch_check_all 31 sampleSt).2).2.kill_switch_registry) :=
  ⟨(kill_switch_exactly_once_removal sampleSt "s" "alice" 0 31 62).1 31
     (St.mk [] [] [create_minimal_log 31 "session_end" none (some 31) (some 0) none none])
     rfl,
   (kill_switch_exactly_once_removal sampleSt "s" "alice" 0 31 62).2.1
     { session_id := "s", reason := "heartbeat_timeout", missed_heartbeats := 3,
       elapsed := 31, server_id := "srv-1" } (by decide) rfl,
   (kill_switch_exactly_once_removal sampleSt "s" "alice" 0 31 62).2.2
     { enabled := true, last_heartbeat := 0, missed_heartbeats := 0, status := .active }
     sampleSess (by decide) (by decide) rfl (by decide) (by decide)⟩

/-- Closed instance of `create_minimal_log_anonymized`: a record built with
an explicit server id and a 3-character region stores no server id and the
2-character upper-cased region code. -/
theorem create_minimal_log_anonymized_witness :
    (create_minimal_log 7 "session_end" (some "srv-9") none none none
        (some ['u', 's', 'a'])).server_id = none ∧
    (create_minimal_log 7 "session_end" (some "srv-9") none none none
        (some ['u', 's', 'a'])).anonymized_region = some ['U', 'S'] ∧
    (['U', 'S'] : List Char).length ≤ 2 :=
  ⟨(create_minimal_log_anonymized 7 "session_end" (some "srv-9") none none none
      (some ['u', 's', 'a'])).1,
   by decide,
   (create_minimal_log_anonymized 7 "session_end" (some "srv-9") none none none
      (some ['u', 's', 'a'])).2 ['U', 'S'] (by decide)⟩

end XVPN
